import Mathlib

/-!
Verification of the agricultural-robot control panel (frontend/backend demo).

Shallow embedding of the JavaScript sources:
  - backend/controllers/robotController.js (request handlers; the data-layer
    binding at its lines 22-26: the mockData require is commented out and
    the active binding is the dataSource module),
  - backend/data/mockData.js (in-memory mock data layer),
  - backend/data/dataSource.js (transport layer: MQTT message handler,
    command/action senders, cache, exports),
  - frontend/js/alert.js (AlertService rule engine),
  - frontend/js/video.js (DataService robot-status poller).

JavaScript numbers are modelled as exact rationals (ℚ); a non-finite result
of a division (NaN/Infinity) is modelled as `none` of an `Option ℚ`.
`Number(x.toFixed(1))` is modelled as rounding to one decimal place.
Side effects that leave the modelled state (console logs, DOM writes,
transport transmissions) are either dropped or collected in explicit
output lists.
-/

namespace RobotDemo

/-- JavaScript truthiness of an optional string field of a request body:
`undefined` and the empty string are falsy, everything else is truthy. -/
def jsTruthyStr (v : Option String) : Bool :=
  match v with
  | none => false
  | some s => !s.isEmpty

/-- `value || default` for an optional string (mockData uses it for the
task-status default). -/
def jsOrStr (v : Option String) (d : String) : String :=
  match v with
  | none => d
  | some s => if s.isEmpty then d else s

/-- `value || default` for an optional number (mockData uses it for the
task-progress default; `0` is falsy in JavaScript, which coincides with the
default used there). -/
def jsOrInt (v : Option Int) (d : Int) : Int :=
  match v with
  | none => d
  | some n => if n = 0 then d else n

/-- mockData.js `clamp`: `Math.min(Math.max(value, min), max)`. -/
def clampQ (value lo hi : ℚ) : ℚ := min (max value lo) hi

/-- `Number(x.toFixed(1))`: round to one decimal place. -/
def toFixed1 (q : ℚ) : ℚ := (round (q * 10) : ℚ) / 10

-- ============================================================
-- mockData.js: task store
-- ============================================================

/-- A task record of mockData.js (`{id, name, status, progress}`). -/
structure TaskT where
  id : Nat
  name : String
  status : String
  progress : Int
deriving DecidableEq

/-- The initial `tasks` array of mockData.js. -/
def tasksInit : List TaskT :=
  [⟨1, "A区灌溉作业", "active", 45⟩,
   ⟨2, "B区病虫害检测", "pending", 0⟩,
   ⟨3, "D区施肥作业", "done", 100⟩]

/-- `Math.max(...tasks.map(t => t.id))` (0 on the empty list; mockData only
evaluates it on non-empty lists, where ids are non-negative so the 0 seed is
inert). -/
def maxTaskId : List TaskT → Nat
  | [] => 0
  | t :: ts => max t.id (maxTaskId ts)

/-- The `{name, status?, progress?}` object the controller passes to
`mockData.createTask`. -/
structure TaskInput where
  name : String
  status : Option String
  progress : Option Int

/-- mockData.js `createTask`: new id is `max existing id + 1` (1 on an empty
list), status defaults to "pending", progress to 0; the new task is pushed at
the end.  Returns the created task and the new list. -/
def createTask (td : TaskInput) (ts : List TaskT) : TaskT × List TaskT :=
  let newId := if ts.length > 0 then maxTaskId ts + 1 else 1
  let newTask : TaskT :=
    ⟨newId, td.name, jsOrStr td.status "pending", jsOrInt td.progress 0⟩
  (newTask, ts ++ [newTask])

/-- The `{name?, status?, progress?}` update object of
`mockData.updateTask`. -/
structure TaskPatch where
  name : Option String
  status : Option String
  progress : Option Int

/-- Field-wise task update of `mockData.updateTask` (progress is clamped to
[0, 100]). -/
def applyTaskPatch (p : TaskPatch) (t : TaskT) : TaskT :=
  let t1 := match p.name with | some n => { t with name := n } | none => t
  let t2 := match p.status with | some s => { t1 with status := s } | none => t1
  match p.progress with
  | some pr => { t2 with progress := min (max pr 0) 100 }
  | none => t2

/-- mockData.js `updateTask`: find the first task with the given id and
mutate its provided fields in place (the rest of the list is untouched). -/
def updateTaskL (tid : Nat) (p : TaskPatch) : List TaskT → List TaskT
  | [] => []
  | t :: ts => if t.id = tid then applyTaskPatch p t :: ts else t :: updateTaskL tid p ts

/-- mockData.js `deleteTask`: `tasks = tasks.filter(t => t.id !== taskId)`. -/
def deleteTaskL (tid : Nat) (ts : List TaskT) : List TaskT :=
  ts.filter (fun t => t.id != tid)

/-- One task-store operation (the three mutating mockData task functions). -/
inductive TaskOp where
  | create (td : TaskInput)
  | update (tid : Nat) (p : TaskPatch)
  | delete (tid : Nat)

/-- Apply one task operation to the store. -/
def applyTaskOp (ts : List TaskT) (op : TaskOp) : List TaskT :=
  match op with
  | .create td => (createTask td ts).2
  | .update tid p => updateTaskL tid p ts
  | .delete tid => deleteTaskL tid ts

/-- Apply a sequence of task operations, oldest first. -/
def applyTaskOps (ops : List TaskOp) (ts : List TaskT) : List TaskT :=
  ops.foldl applyTaskOp ts

-- ============================================================
-- robotController.js: data-layer binding and task endpoints
-- ============================================================

/-- robotController.js line 22: the `require('../data/mockData')` is
commented out, so the identifier `mockData` is not bound in the controller
module; `none` models that missing binding (the active binding, line 23/26,
is the dataSource module). -/
def mockDataBinding : Option Unit := none

/-- An error response (`sendError`): HTTP status plus message; reading the
unbound `mockData` identifier surfaces as a ReferenceError that
`asyncHandler` forwards to the error middleware (a 500-class response). -/
structure ApiErr where
  status : Nat
  message : String
deriving DecidableEq

/-- robotController.js `createTask` handler (POST /api/tasks): validates
`name`, then evaluates `mockData.createTask({name, status, progress})`.
Since `mockDataBinding` is `none`, that member access throws. -/
def createTaskHandler (name status : Option String) (progress : Option Int)
    (ts : List TaskT) : Except ApiErr (TaskT × List TaskT) :=
  if !jsTruthyStr name then .error ⟨400, "缺少必填字段: name"⟩
  else
    match mockDataBinding with
    | none => .error ⟨500, "ReferenceError: mockData is not defined"⟩
    | some _ => .ok (createTask ⟨name.getD "", status, progress⟩ ts)

-- ============================================================
-- Theorems: C1 and C6
-- ============================================================

/-- C1 (code_bug evaluation): a POST /api/tasks with the non-empty name "X"
does not produce the documented success response: the handler evaluates the
unbound `mockData` identifier and fails with a 500-class ReferenceError.
The intended data-layer function `mockData.createTask` itself does satisfy
the claim: on the initial store it returns a fresh numeric id 4, status
defaulting to "pending", progress defaulting to 0, and the new task is a
member of the resulting list. -/
theorem createTask_endpoint_throws_referenceError :
    createTaskHandler (some "X") none none tasksInit
        = .error ⟨500, "ReferenceError: mockData is not defined"⟩
    ∧ (createTask ⟨"X", none, none⟩ tasksInit).1 = ⟨4, "X", "pending", 0⟩
    ∧ (createTask ⟨"X", none, none⟩ tasksInit).1
        ∈ (createTask ⟨"X", none, none⟩ tasksInit).2 := by
  refine ⟨rfl, rfl, ?_⟩
  decide

/-- C6 (counterexample): deleting the task with id 3 from the initial store
and then creating a new task hands out id `max remaining + 1 = 3` again —
the deleted id is silently reused, contradicting the claim that the new id
differs from every deleted id. -/
theorem deleted_max_id_is_reused :
    deleteTaskL 3 tasksInit
        = [⟨1, "A区灌溉作业", "active", 45⟩, ⟨2, "B区病虫害检测", "pending", 0⟩]
    ∧ (createTask ⟨"X", none, none⟩ (deleteTaskL 3 tasksInit)).1.id = 3 := by
  decide

/-- Every task's id is bounded by `maxTaskId`. -/
theorem mem_id_le_maxTaskId {t : TaskT} {ts : List TaskT} (h : t ∈ ts) :
    t.id ≤ maxTaskId ts := by
  induction ts with
  | nil => cases h
  | cons a rest ih =>
    rcases List.mem_cons.mp h with h1 | h2
    · simp [maxTaskId, h1]
    · exact le_trans (ih h2) (le_max_right _ _)

/-- `updateTaskL` does not change the list of ids. -/
theorem updateTaskL_map_id (tid : Nat) (p : TaskPatch) (ts : List TaskT) :
    (updateTaskL tid p ts).map TaskT.id = ts.map TaskT.id := by
  induction ts with
  | nil => rfl
  | cons a rest ih =>
    by_cases h : a.id = tid
    · have hid : (applyTaskPatch p a).id = a.id := by
        unfold applyTaskPatch
        cases p.name <;> cases p.status <;> cases p.progress <;> rfl
      simp [updateTaskL, h, hid]
    · simp [updateTaskL, h, ih]

/-- One task operation preserves distinctness of the ids. -/
theorem applyTaskOp_nodup {ts : List TaskT} (op : TaskOp)
    (h : (ts.map TaskT.id).Nodup) : ((applyTaskOp ts op).map TaskT.id).Nodup := by
  cases op with
  | create td =>
    cases ts with
    | nil => simp [applyTaskOp, createTask]
    | cons a rest =>
      have hnew : maxTaskId (a :: rest) + 1 ∉ (a :: rest).map TaskT.id := by
        intro hmem
        rcases List.mem_map.mp hmem with ⟨t, ht, hid⟩
        have := mem_id_le_maxTaskId ht
        omega
      have : ((a :: rest).map TaskT.id ++ [maxTaskId (a :: rest) + 1]).Nodup := by
        refine List.Nodup.append h (List.nodup_singleton _) ?_
        intro x hx hy
        rcases List.mem_singleton.mp hy with rfl
        exact hnew hx
      simpa [applyTaskOp, createTask] using this
  | update tid p =>
    simpa [applyTaskOp, updateTaskL_map_id] using h
  | delete tid =>
    have hsub : ((deleteTaskL tid ts).map TaskT.id).Sublist (ts.map TaskT.id) :=
      List.Sublist.map TaskT.id (List.filter_sublist ts)
    exact h.sublist hsub

/-- Distinctness of ids is preserved by any operation sequence. -/
theorem applyTaskOps_nodup (ops : List TaskOp) {ts : List TaskT}
    (h : (ts.map TaskT.id).Nodup) : ((applyTaskOps ops ts).map TaskT.id).Nodup := by
  induction ops generalizing ts with
  | nil => exact h
  | cons op rest ih => exact ih (applyTaskOp_nodup op h)

/-- C6 (amended): task ids stay pairwise distinct across every sequence of
create/update/delete operations starting from the initial store (creation
assigns `max existing id + 1`, which exceeds every present id; updates keep
ids; deletion only removes entries) — but deleted ids are NOT fresh forever:
deleting the task with the largest id and creating a new task reuses exactly
that id. -/
theorem task_ids_unique_after_any_ops (ops : List TaskOp) :
    ((applyTaskOps ops tasksInit).map TaskT.id).Nodup :=
  applyTaskOps_nodup ops (by decide)

-- ============================================================
-- mockData.js: statistics store
-- ============================================================

/-- The statistics slice of mockData's `state` (`completedArea`,
`totalArea`). -/
structure StatsState where
  completedArea : ℚ
  totalArea : ℚ
deriving DecidableEq

/-- mockData's initial statistics state (`completedArea: 12.5`,
`totalArea: 38.2`). -/
def statsInit : StatsState := ⟨25 / 2, 191 / 5⟩

/-- The statistics object returned to the controller: `completedArea`
rounded to one decimal, `totalArea`, and `progress` (`none` models a
non-finite JavaScript result, i.e. NaN). -/
structure StatsResult where
  completedArea : ℚ
  totalArea : ℚ
  progress : Option ℚ
deriving DecidableEq

/-- mockData.js `getStatistics`: grows `completedArea` by a random increment
`r ∈ [0, 0.1]` clamped to `[0, totalArea]`, then returns
`progress = Number((completedArea / totalArea * 100).toFixed(1))` with NO
guard for `totalArea = 0` (there `0 / 0` is NaN, modelled `none`).
Returns the result and the post-state. -/
def mockGetStatistics (r : ℚ) (st : StatsState) : StatsResult × StatsState :=
  let c := clampQ (st.completedArea + r) 0 st.totalArea
  let progress : Option ℚ :=
    if st.totalArea = 0 then none else some (toFixed1 (c / st.totalArea * 100))
  (⟨toFixed1 c, st.totalArea, progress⟩, ⟨c, st.totalArea⟩)

/-- The `{completedArea?, totalArea?}` body of `mockData.updateStatistics`. -/
structure StatsPatch where
  completedArea : Option ℚ
  totalArea : Option ℚ

/-- mockData.js `updateStatistics`: each provided field is floored at 0
(`Math.max(0, v)`) — there is no clamping of `completedArea` to `totalArea`;
`progress` is guarded (`totalArea > 0 ? ... : 0`). -/
def mockUpdateStatistics (p : StatsPatch) (st : StatsState) :
    StatsResult × StatsState :=
  let c := match p.completedArea with | some v => max 0 v | none => st.completedArea
  let t := match p.totalArea with | some v => max 0 v | none => st.totalArea
  let progress : Option ℚ :=
    if 0 < t then some (toFixed1 (c / t * 100)) else some 0
  (⟨toFixed1 c, t, progress⟩, ⟨c, t⟩)

-- ============================================================
-- Theorems: C4 and C5
-- ============================================================

/-- C4 (counterexample): a statistics read at stored state
`completedArea = 1, totalArea = 3` (zero random increment) returns
`progress = 33.3`, which is NOT equal to `completedArea / totalArea × 100 =
100/3 = 33.33…`: the code rounds to one decimal place, so the claimed exact
equality fails. -/
theorem statistics_progress_is_rounded_not_exact :
    (mockGetStatistics 0 ⟨1, 3⟩).1.progress = some (333 / 10)
    ∧ (mockGetStatistics 0 ⟨1, 3⟩).2.completedArea
        / (mockGetStatistics 0 ⟨1, 3⟩).2.totalArea * 100 = 100 / 3
    ∧ (333 : ℚ) / 10 ≠ 100 / 3 := by
  refine ⟨?_, by norm_num [mockGetStatistics, clampQ], by norm_num⟩
  show (if (3 : ℚ) = 0 then none
      else some (toFixed1 (clampQ (1 + 0) 0 3 / 3 * 100))) = some (333 / 10)
  rw [if_neg (by norm_num)]
  norm_num [toFixed1, clampQ, round_eq]

/-- C4 (amended): on every statistics read with positive `totalArea`, the
returned progress equals `completedArea / totalArea × 100` of the stored
post-state ROUNDED to one decimal place (hence within 0.05 of the exact
ratio); when `totalArea = 0` the read returns NaN (modelled `none`), not 0;
and the data-layer update with `completedArea: 15, totalArea: 40` returns
`progress = 37.5` exactly (the HTTP endpoint itself fails on the unbound
`mockData` reference, see the C1 theorem). -/
theorem statistics_progress_rounded_ratio (st : StatsState) (r : ℚ)
    (h : 0 < st.totalArea) :
    (mockGetStatistics r st).1.progress
        = some (toFixed1 ((mockGetStatistics r st).2.completedArea
            / st.totalArea * 100))
    ∧ (∀ q, (mockGetStatistics r st).1.progress = some q →
        |q - (mockGetStatistics r st).2.completedArea / st.totalArea * 100| ≤ 1 / 20)
    ∧ (mockUpdateStatistics ⟨some 15, some 40⟩ st).1.progress = some (75 / 2)
    ∧ (∀ st2 : StatsState, st2.totalArea = 0 →
        (mockGetStatistics r st2).1.progress = none) := by
  have hne : st.totalArea ≠ 0 := ne_of_gt h
  refine ⟨?_, ?_, ?_, ?_⟩
  · simp [mockGetStatistics, hne]
  · intro q hq
    simp only [mockGetStatistics, hne, if_false, Option.some.injEq, reduceIte] at hq
    subst hq
    have hb := abs_sub_round ((clampQ (st.completedArea + r) 0 st.totalArea
        / st.totalArea * 100) * 10)
    rw [abs_sub_comm] at hb
    simp only [mockGetStatistics, toFixed1]
    rw [show ((round ((clampQ (st.completedArea + r) 0 st.totalArea
          / st.totalArea * 100) * 10) : ℚ) / 10
        - clampQ (st.completedArea + r) 0 st.totalArea / st.totalArea * 100)
      = ((round ((clampQ (st.completedArea + r) 0 st.totalArea
          / st.totalArea * 100) * 10) : ℚ)
        - (clampQ (st.completedArea + r) 0 st.totalArea / st.totalArea * 100) * 10)
          / 10 by ring]
    rw [abs_div]
    rw [show |(10 : ℚ)| = 10 by norm_num]
    linarith [hb]
  · show (if (0 : ℚ) < max 0 40 then
        some (toFixed1 (max 0 15 / max 0 40 * 100)) else some 0) = some (75 / 2)
    rw [if_pos (by norm_num)]
    norm_num [toFixed1, round_eq]
  · intro st2 h2
    simp [mockGetStatistics, h2]

/-- Witness for the C4 theorem at the initial statistics state with a zero
increment. -/
theorem statistics_progress_rounded_ratio_witness :
    (0 : ℚ) < statsInit.totalArea
    ∧ ((mockGetStatistics 0 statsInit).1.progress
        = some (toFixed1 ((mockGetStatistics 0 statsInit).2.completedArea
            / statsInit.totalArea * 100))
      ∧ (∀ q, (mockGetStatistics 0 statsInit).1.progress = some q →
          |q - (mockGetStatistics 0 statsInit).2.completedArea
              / statsInit.totalArea * 100| ≤ 1 / 20)
      ∧ (mockUpdateStatistics ⟨some 15, some 40⟩ statsInit).1.progress
          = some (75 / 2)
      ∧ (∀ st2 : StatsState, st2.totalArea = 0 →
          (mockGetStatistics 0 st2).1.progress = none)) :=
  ⟨by norm_num [statsInit],
   statistics_progress_rounded_ratio statsInit 0 (by norm_num [statsInit])⟩

/-- C5 (counterexample): a POST /api/statistics update carrying only the
non-negative value `completedArea: 50` (totalArea untouched at 38.2) leaves
the stored state with `completedArea = 50 > totalArea = 38.2`: the update
path never clamps `completedArea` to `totalArea`, so the claimed invariant
fails. -/
theorem updateStatistics_breaks_area_invariant :
    (0 : ℚ) ≤ 50
    ∧ (mockUpdateStatistics ⟨some 50, none⟩ statsInit).2
        = ⟨50, 191 / 5⟩
    ∧ ¬ ((mockUpdateStatistics ⟨some 50, none⟩ statsInit).2.completedArea
        ≤ (mockUpdateStatistics ⟨some 50, none⟩ statsInit).2.totalArea) := by
  refine ⟨by norm_num, ?_, ?_⟩
  · show (⟨max 0 50, statsInit.totalArea⟩ : StatsState) = ⟨50, 191 / 5⟩
    norm_num [statsInit]
  · show ¬ (max 0 50 ≤ statsInit.totalArea)
    norm_num [statsInit]

/-- C5 (amended): the read-with-growth path always re-establishes
`completedArea ≤ totalArea` (it clamps), and an update that supplies both
fields with `completedArea ≤ totalArea` preserves the invariant; but the
update itself enforces only non-negativity, so other updates can break it
(see the counterexample). -/
theorem statistics_invariant_on_read_and_consistent_update
    (st : StatsState) (r c t : ℚ) (h : c ≤ t) :
    (mockGetStatistics r st).2.completedArea ≤ (mockGetStatistics r st).2.totalArea
    ∧ (mockUpdateStatistics ⟨some c, some t⟩ st).2.completedArea
        ≤ (mockUpdateStatistics ⟨some c, some t⟩ st).2.totalArea := by
  constructor
  · show clampQ (st.completedArea + r) 0 st.totalArea ≤ st.totalArea
    exact min_le_right _ _
  · show max 0 c ≤ max 0 t
    exact max_le_max le_rfl h

/-- Witness for the C5 theorem at the initial state with a consistent
update. -/
theorem statistics_invariant_witness :
    (10 : ℚ) ≤ 20
    ∧ ((mockGetStatistics 0 statsInit).2.completedArea
          ≤ (mockGetStatistics 0 statsInit).2.totalArea
      ∧ (mockUpdateStatistics ⟨some 10, some 20⟩ statsInit).2.completedArea
          ≤ (mockUpdateStatistics ⟨some 10, some 20⟩ statsInit).2.totalArea) :=
  ⟨by norm_num,
   statistics_invariant_on_read_and_consistent_update statsInit 0 10 20 (by norm_num)⟩

-- ============================================================
-- dataSource.js: transport layer
-- ============================================================

/-- The `CONFIG.type` alternatives of dataSource.js. -/
inductive SourceType where
  | serial
  | mqtt
  | http
  | websocket
  | database
deriving DecidableEq

/-- dataSource.js `CONFIG.type` as configured: `'mqtt'`. -/
def configType : SourceType := .mqtt

/-- The command → label table of dataSource.js `handleCommand`. -/
def dsCOMMANDS : List (String × String) :=
  [("forward", "前进"), ("backward", "后退"), ("left", "左转"),
   ("right", "右转"), ("stop", "停止")]

/-- The action → label table of dataSource.js `handleAction`. -/
def dsACTIONS : List (String × String) :=
  [("irrigation", "灌溉"), ("fertilize", "施肥"), ("scan", "扫描"),
   ("harvest", "收割")]

/-- First-match association-list lookup (JavaScript object property
access). -/
def lookupA {α : Type} : List (String × α) → String → Option α
  | [], _ => none
  | (k, v) :: rest, key => if k = key then some v else lookupA rest key

/-- The acknowledgment object returned by `handleCommand`/`handleAction`
(`{executed, command|action, message}`; the echoed command or action code is
the `code` field here). -/
structure CmdAck where
  executed : Bool
  code : String
  message : String
deriving DecidableEq

/-- An outbound transmission of the transport layer (the serialized
`{type, command|action}` payloads are modelled structurally). -/
inductive Send where
  | mqttPub (topic typeField value : String)
  | serialWrite (value : String)
  | wsSend (typeField value : String)
deriving DecidableEq

/-- dataSource.js `handleCommand`: looks up the label, and for the HTTP
transport returns `executed: false` early when the request fails; every
other path — including MQTT/serial/WebSocket with NO connection, where the
send is silently skipped — falls through to the final
`{executed: true, message: "指令已发送: …"}`.  `conn` is the module-level
`connection` (`some readyState`, or `none` when no connection object
exists); `httpRes` is the outcome of the `httpRequest` call used only by the
HTTP transport.  The function never throws: it always returns an
acknowledgment, plus the list of transmissions actually performed. -/
def handleCommand (t : SourceType) (conn : Option Nat)
    (httpRes : Except String Unit) (command : String) : CmdAck × List Send :=
  let commandName := (lookupA dsCOMMANDS command).getD command
  match t, httpRes with
  | .http, .error e => (⟨false, command, "指令发送失败: " ++ e⟩, [])
  | _, _ =>
    let sends :=
      (if t = .mqtt ∧ conn.isSome then
        [Send.mqttPub "robot/control" "command" command] else [])
      ++ (if t = .serial ∧ conn.isSome then [Send.serialWrite command] else [])
      ++ (if t = .websocket ∧ conn = some 1 then
        [Send.wsSend "command" command] else [])
    (⟨true, command, "指令已发送: " ++ commandName⟩, sends)

/-- dataSource.js `handleAction`: same shape as `handleCommand` with the
action table and messages. -/
def handleAction (t : SourceType) (conn : Option Nat)
    (httpRes : Except String Unit) (action : String) : CmdAck × List Send :=
  let actionName := (lookupA dsACTIONS action).getD action
  match t, httpRes with
  | .http, .error e => (⟨false, action, "操作发送失败: " ++ e⟩, [])
  | _, _ =>
    let sends :=
      (if t = .mqtt ∧ conn.isSome then
        [Send.mqttPub "robot/control" "action" action] else [])
      ++ (if t = .serial ∧ conn.isSome then [Send.serialWrite action] else [])
      ++ (if t = .websocket ∧ conn = some 1 then
        [Send.wsSend "action" action] else [])
    (⟨true, action, actionName ++ "作业已启动"⟩, sends)

-- ============================================================
-- dataSource.js: telemetry cache and MQTT message handler
-- ============================================================

/-- GPS coordinates sub-object of the robot cache. -/
structure Coord where
  lat : ℚ
  lon : ℚ
deriving DecidableEq

/-- `cache.robot` of dataSource.js. -/
structure RobotCache where
  battery : ℚ
  speed : ℚ
  temperature : ℚ
  coordinates : Coord
deriving DecidableEq

/-- `cache.sensors` of dataSource.js. -/
structure SensorCache where
  soilHumidity : ℚ
  soilTemp : ℚ
  light : ℚ
  airHumidity : ℚ
deriving DecidableEq

/-- `cache.statistics` of dataSource.js. -/
structure StatsCache where
  completedArea : ℚ
  totalArea : ℚ
  progress : ℚ
deriving DecidableEq

/-- The whole dataSource.js `cache`. -/
structure Cache where
  robot : RobotCache
  sensors : SensorCache
  tasks : List TaskT
  statistics : StatsCache
  lastUpdate : Option Nat
deriving DecidableEq

/-- The initial dataSource.js cache (all zeros, no tasks, no update
timestamp). -/
def cacheInit : Cache := ⟨⟨0, 0, 0, ⟨0, 0⟩⟩, ⟨0, 0, 0, 0⟩, [], ⟨0, 0, 0⟩, none⟩

/-- A parsed `robot/status` payload: the top-level keys present in the JSON
object (a present `coordinates` key carries a whole replacement sub-object,
as the spread `{...cache.robot, ...data}` is shallow). -/
structure RobotPatch where
  battery : Option ℚ
  speed : Option ℚ
  temperature : Option ℚ
  coordinates : Option Coord

/-- A parsed `robot/sensors` payload (top-level keys present). -/
structure SensorPatch where
  soilHumidity : Option ℚ
  soilTemp : Option ℚ
  light : Option ℚ
  airHumidity : Option ℚ

/-- A parsed `robot/statistics` payload (top-level keys present). -/
structure StatsCachePatch where
  completedArea : Option ℚ
  totalArea : Option ℚ
  progress : Option ℚ

/-- Shallow merge `{...cache.robot, ...data}`. -/
def mergeRobot (c : RobotCache) (p : RobotPatch) : RobotCache :=
  ⟨p.battery.getD c.battery, p.speed.getD c.speed,
   p.temperature.getD c.temperature, p.coordinates.getD c.coordinates⟩

/-- Shallow merge `{...cache.sensors, ...data}`. -/
def mergeSensors (c : SensorCache) (p : SensorPatch) : SensorCache :=
  ⟨p.soilHumidity.getD c.soilHumidity, p.soilTemp.getD c.soilTemp,
   p.light.getD c.light, p.airHumidity.getD c.airHumidity⟩

/-- Shallow merge `{...cache.statistics, ...data}`. -/
def mergeStats (c : StatsCache) (p : StatsCachePatch) : StatsCache :=
  ⟨p.completedArea.getD c.completedArea, p.totalArea.getD c.totalArea,
   p.progress.getD c.progress⟩

/-- One inbound MQTT message as the handler sees it: either `JSON.parse`
threw (malformed), or a parsed payload on one of the four subscribed topics
(`tasksMsg none` is a valid JSON payload that is NOT an array — e.g. `{}`),
or a valid payload on a topic matching no branch. -/
inductive MqttMsg where
  | malformed (raw : String)
  | statusMsg (p : RobotPatch)
  | sensorsMsg (p : SensorPatch)
  | tasksMsg (arr : Option (List TaskT))
  | statsMsg (p : StatsCachePatch)
  | otherTopic (topic : String)

/-- The `connection.on('message', …)` handler of dataSource.js `initMqtt`:
a malformed payload is caught and the cache left untouched; `robot/status`,
`robot/sensors` and `robot/statistics` shallow-merge into their category;
`robot/tasks` REPLACES the task list (`Array.isArray(data) ? data : []`);
any successfully parsed message refreshes `cache.lastUpdate`. -/
def onMqttMessage (m : MqttMsg) (now : Nat) (c : Cache) : Cache :=
  match m with
  | .malformed _ => c
  | .statusMsg p => { c with robot := mergeRobot c.robot p, lastUpdate := some now }
  | .sensorsMsg p => { c with sensors := mergeSensors c.sensors p, lastUpdate := some now }
  | .tasksMsg arr => { c with tasks := arr.getD [], lastUpdate := some now }
  | .statsMsg p => { c with statistics := mergeStats c.statistics p, lastUpdate := some now }
  | .otherTopic _ => { c with lastUpdate := some now }

-- ============================================================
-- robotController.js: control and status-update endpoints
-- ============================================================

/-- A response of POST /api/robot/control: either the success envelope
(spreading the acknowledgment) or `sendError`'s status and message. -/
inductive CtrlResp where
  | ok (ack : CmdAck)
  | err (status : Nat) (message : String)
deriving DecidableEq

/-- robotController.js `sendCommand` handler (POST /api/robot/control):
rejects with 400 only when BOTH `command` and `action` are falsy
(`!command && !action`); otherwise `command ? handleCommand(command)
: handleAction(action)` — when both are present the command wins and the
request is accepted. -/
def sendCommandHandler (t : SourceType) (conn : Option Nat)
    (httpRes : Except String Unit) (command action : Option String) : CtrlResp :=
  if !jsTruthyStr command && !jsTruthyStr action then
    .err 400 "缺少 command 或 action 参数"
  else if jsTruthyStr command then
    .ok (handleCommand t conn httpRes (command.getD "")).1
  else
    .ok (handleAction t conn httpRes (action.getD "")).1

/-- dataSource.js `module.exports` (lines 673-689) exports
`getRobotStatus/getSensorData/getTasks/getStatistics/handleCommand/
handleAction/init/close/getConnectionStatus/CONFIG` — and NO
`updateRobotStatus`; so the controller's feature probe
`data.updateRobotStatus` yields `undefined`, modelled `none`. -/
def dsUpdateRobotStatus :
    Option (List (String × ℚ) → Cache → List (String × ℚ) × Cache) := none

/-- robotController.js `updateStatus` handler (POST /api/robot/status) with
the dataSource module bound as the data layer: rejects an empty body with
400; otherwise `data.updateRobotStatus ? data.updateRobotStatus(statusData)
: statusData` — the probe is `undefined`, so the body is echoed back and no
server-side state is touched.  The handler returns the response data and the
(unchanged) transport cache. -/
def updateStatusHandler (body : List (String × ℚ)) (c : Cache) :
    Except ApiErr (List (String × ℚ) × Cache) :=
  if body.length = 0 then .error ⟨400, "请至少提供一个状态字段"⟩
  else
    match dsUpdateRobotStatus with
    | some f => .ok (f body c)
    | none => .ok (body, c)

-- ============================================================
-- Theorems: C2, C3, C9, C10
-- ============================================================

/-- C2 (counterexample): a POST /api/robot/control body carrying BOTH
`command: "forward"` and `action: "scan"` is NOT rejected: the handler
accepts it and executes the command branch, contradicting the claim that
both-present is a 400-class input error. -/
theorem control_accepts_command_and_action_together :
    sendCommandHandler configType none (.ok ()) (some "forward") (some "scan")
      = .ok ⟨true, "forward", "指令已发送: 前进"⟩ := by
  rfl

/-- C2 (amended): POST /api/robot/control is rejected (400, "缺少 command 或
action 参数") exactly when both `command` and `action` are absent or empty;
whenever `command` is present it is accepted and dispatched to
`handleCommand`, even if `action` is also present (command takes
precedence). -/
theorem control_rejects_only_when_both_missing (t : SourceType)
    (conn : Option Nat) (httpRes : Except String Unit)
    (command action : Option String) :
    (sendCommandHandler t conn httpRes command action
        = .err 400 "缺少 command 或 action 参数"
      ↔ jsTruthyStr command = false ∧ jsTruthyStr action = false)
    ∧ (jsTruthyStr command = true →
        sendCommandHandler t conn httpRes command action
          = .ok (handleCommand t conn httpRes (command.getD "")).1) := by
  cases h1 : jsTruthyStr command <;> cases h2 : jsTruthyStr action <;>
    simp [sendCommandHandler, h1, h2]

/-- Witness for the C2 theorem: both fields present, the command branch is
taken. -/
theorem control_rejects_only_when_both_missing_witness :
    jsTruthyStr (some "forward") = true
    ∧ sendCommandHandler configType none (.ok ()) (some "forward") (some "scan")
        = .ok (handleCommand configType none (.ok ())
            ((some "forward").getD "")).1 :=
  ⟨rfl, (control_rejects_only_when_both_missing configType none (.ok ())
    (some "forward") (some "scan")).2 rfl⟩

/-- C3 (counterexample): with the configured MQTT transport and NO
connection (transport unavailable), `handleCommand "forward"` transmits
nothing yet still acknowledges `executed = true` with the success message —
the claim required `executed = false` with a descriptive failure message. -/
theorem unavailable_transport_still_acknowledges_executed :
    handleCommand configType none (.ok ()) "forward"
      = (⟨true, "forward", "指令已发送: 前进"⟩, []) := by
  rfl

/-- C3 (amended): the command/action senders never throw — they always
return an acknowledgment — but on the configured MQTT transport the
acknowledgment is `executed = true` even when no connection exists (the send
is silently skipped); `executed = false` occurs ONLY on the HTTP transport
when its request fails, with the descriptive messages
"指令发送失败: …" / "操作发送失败: …". -/
theorem executed_false_only_on_http_failure (conn : Option Nat)
    (httpRes : Except String Unit) (cmd act : String) :
    (handleCommand .mqtt conn httpRes cmd).1.executed = true
    ∧ (handleAction .mqtt conn httpRes act).1.executed = true
    ∧ (∀ e, (handleCommand .http conn (.error e) cmd).1
        = ⟨false, cmd, "指令发送失败: " ++ e⟩)
    ∧ (∀ e, (handleAction .http conn (.error e) act).1
        = ⟨false, act, "操作发送失败: " ++ e⟩)
    ∧ (∀ t : SourceType, (handleCommand t conn (.ok ()) cmd).1.executed = true) := by
  refine ⟨?_, ?_, fun e => rfl, fun e => rfl, fun t => ?_⟩
  · cases httpRes <;> rfl
  · cases httpRes <;> rfl
  · cases t <;> rfl

/-- C9 (counterexample): a syntactically valid JSON payload that is not an
array (e.g. `{}` — no fields present at all) on topic `robot/tasks` WIPES
the cached task list: the previous non-empty list is replaced by `[]`,
contradicting the claim that fields absent from the payload keep their
previous values. -/
theorem tasks_topic_wipes_cache_on_nonarray_payload :
    (onMqttMessage (.tasksMsg none) 5 { cacheInit with tasks := tasksInit }).tasks
        = []
    ∧ tasksInit ≠ [] := by
  exact ⟨rfl, by decide⟩

/-- C9 (amended): a malformed (unparseable) payload leaves the whole cache
unchanged; on the `robot/status`, `robot/sensors` and `robot/statistics`
topics only the top-level fields present in the payload are written — absent
fields keep their previous values — and the other categories are untouched;
the `robot/tasks` topic instead REPLACES the whole list (resetting it to
empty when the payload is not an array). -/
theorem mqtt_merge_frame_conditions (c : Cache) (now : Nat) :
    (∀ raw, onMqttMessage (.malformed raw) now c = c)
    ∧ (∀ p : RobotPatch,
        (onMqttMessage (.statusMsg p) now c).robot.battery
            = p.battery.getD c.robot.battery
        ∧ (onMqttMessage (.statusMsg p) now c).robot.speed
            = p.speed.getD c.robot.speed
        ∧ (onMqttMessage (.statusMsg p) now c).robot.temperature
            = p.temperature.getD c.robot.temperature
        ∧ (onMqttMessage (.statusMsg p) now c).robot.coordinates
            = p.coordinates.getD c.robot.coordinates
        ∧ (onMqttMessage (.statusMsg p) now c).sensors = c.sensors
        ∧ (onMqttMessage (.statusMsg p) now c).tasks = c.tasks
        ∧ (onMqttMessage (.statusMsg p) now c).statistics = c.statistics)
    ∧ (∀ p : SensorPatch,
        (onMqttMessage (.sensorsMsg p) now c).sensors.soilHumidity
            = p.soilHumidity.getD c.sensors.soilHumidity
        ∧ (onMqttMessage (.sensorsMsg p) now c).sensors.soilTemp
            = p.soilTemp.getD c.sensors.soilTemp
        ∧ (onMqttMessage (.sensorsMsg p) now c).sensors.light
            = p.light.getD c.sensors.light
        ∧ (onMqttMessage (.sensorsMsg p) now c).sensors.airHumidity
            = p.airHumidity.getD c.sensors.airHumidity
        ∧ (onMqttMessage (.sensorsMsg p) now c).robot = c.robot
        ∧ (onMqttMessage (.sensorsMsg p) now c).tasks = c.tasks
        ∧ (onMqttMessage (.sensorsMsg p) now c).statistics = c.statistics)
    ∧ (∀ p : StatsCachePatch,
        (onMqttMessage (.statsMsg p) now c).statistics.completedArea
            = p.completedArea.getD c.statistics.completedArea
        ∧ (onMqttMessage (.statsMsg p) now c).statistics.totalArea
            = p.totalArea.getD c.statistics.totalArea
        ∧ (onMqttMessage (.statsMsg p) now c).statistics.progress
            = p.progress.getD c.statistics.progress
        ∧ (onMqttMessage (.statsMsg p) now c).robot = c.robot
        ∧ (onMqttMessage (.statsMsg p) now c).sensors = c.sensors
        ∧ (onMqttMessage (.statsMsg p) now c).tasks = c.tasks)
    ∧ (∀ arr, (onMqttMessage (.tasksMsg arr) now c).tasks = arr.getD []
        ∧ (onMqttMessage (.tasksMsg arr) now c).robot = c.robot
        ∧ (onMqttMessage (.tasksMsg arr) now c).sensors = c.sensors
        ∧ (onMqttMessage (.tasksMsg arr) now c).statistics = c.statistics) := by
  refine ⟨fun raw => rfl, fun p => ?_, fun p => ?_, fun p => ?_, fun arr => ?_⟩
  · exact ⟨rfl, rfl, rfl, rfl, rfl, rfl, rfl⟩
  · exact ⟨rfl, rfl, rfl, rfl, rfl, rfl, rfl⟩
  · exact ⟨rfl, rfl, rfl, rfl, rfl, rfl⟩
  · exact ⟨rfl, rfl, rfl, rfl⟩

/-- C10 (confirmed): with the dataSource module as the active data layer,
POST /api/robot/status with any non-empty body succeeds, echoes the body
back verbatim as the updated data, and leaves the transport cache (all
server-side state) completely unchanged, because the data layer exports no
`updateRobotStatus` operation. -/
theorem updateStatus_echoes_body_and_keeps_state (body : List (String × ℚ))
    (c : Cache) (h : body ≠ []) :
    updateStatusHandler body c = .ok (body, c) := by
  unfold updateStatusHandler
  rw [if_neg (by simpa using h)]
  rfl

/-- Witness for the C10 theorem at a concrete one-field body and the initial
cache. -/
theorem updateStatus_echoes_body_witness :
    [("battery", (50 : ℚ))] ≠ ([] : List (String × ℚ))
    ∧ updateStatusHandler [("battery", (50 : ℚ))] cacheInit
        = .ok ([("battery", (50 : ℚ))], cacheInit) :=
  ⟨by simp, updateStatus_echoes_body_and_keeps_state _ cacheInit (by simp)⟩

-- ============================================================
-- frontend/js/alert.js: AlertService
-- ============================================================

/-- The telemetry fields inspected by the alert rules. -/
inductive AlertField where
  | battery
  | temperature
  | soilHumidity
  | light
deriving DecidableEq

/-- Rule comparison direction. -/
inductive AlertCond where
  | below
  | above
deriving DecidableEq

/-- One entry of `AlertService.rules`. -/
structure AlertRule where
  enabled : Bool
  threshold : Int
  message : String
  level : String
  field : AlertField
  condition : AlertCond
deriving DecidableEq

/-- `AlertService.rules` in object-literal (= `Object.entries`) order. -/
def alertRules : List (String × AlertRule) :=
  [("lowBattery", ⟨true, 20, "电量过低", "critical", .battery, .below⟩),
   ("highTemperature", ⟨true, 40, "温度过高", "warning", .temperature, .above⟩),
   ("lowSoilHumidity", ⟨true, 30, "土壤湿度过低", "warning", .soilHumidity, .below⟩),
   ("highSoilHumidity", ⟨true, 90, "土壤湿度过高", "info", .soilHumidity, .above⟩),
   ("lowLight", ⟨true, 1000, "光照不足", "info", .light, .below⟩)]

/-- `AlertService.config.alertCooldown` (30000 ms). -/
def alertCooldown : Nat := 30000

/-- `AlertService.config.maxHistory` (50 entries). -/
def alertMaxHistory : Nat := 50

/-- `AlertService.getUnit` restricted to the fields the rules use. -/
def getUnit : AlertField → String
  | .battery => "%"
  | .temperature => "°C"
  | .soilHumidity => "%"
  | .light => " Lux"

/-- A telemetry snapshot (`robotData` or `sensorData`): the rule-relevant
fields, each possibly absent. -/
structure Snapshot where
  battery : Option Int
  temperature : Option Int
  soilHumidity : Option Int
  light : Option Int

/-- Spread override for one field of `{...robotData, ...sensorData}`: a
field present in the second object wins. -/
def pickField (a b : Option Int) : Option Int :=
  match b with
  | some v => some v
  | none => a

/-- The merged `allData = {...robotData, ...sensorData}`. -/
def mergeSnap (r s : Snapshot) : Snapshot :=
  ⟨pickField r.battery s.battery, pickField r.temperature s.temperature,
   pickField r.soilHumidity s.soilHumidity, pickField r.light s.light⟩

/-- `allData[rule.field]`. -/
def getField (d : Snapshot) : AlertField → Option Int
  | .battery => d.battery
  | .temperature => d.temperature
  | .soilHumidity => d.soilHumidity
  | .light => d.light

/-- An entry of `AlertService.activeAlerts` / `alertHistory`. -/
structure ActiveAlert where
  id : String
  message : String
  level : String
  time : Nat
  value : Int
deriving DecidableEq

/-- The AlertService state: the `activeAlerts` map (insertion-ordered, as a
JavaScript `Map`), the bounded `alertHistory`, and the trace of emitted UI
notifications (`showNotification` calls — the DOM lifecycle itself is not
state). -/
structure AlertState where
  active : List (String × ActiveAlert)
  history : List ActiveAlert
  notifications : List ActiveAlert
deriving DecidableEq

/-- `Map.set`: replace in place when the key exists, append otherwise. -/
def setA {α : Type} : List (String × α) → String → α → List (String × α)
  | [], key, v => [(key, v)]
  | (k, w) :: rest, key, v =>
    if k = key then (key, v) :: rest else (k, w) :: setA rest key v

/-- `Map.delete`. -/
def removeA {α : Type} (l : List (String × α)) (key : String) :
    List (String × α) :=
  l.filter (fun kv => kv.1 != key)

/-- `AlertService.addToHistory`: unshift, then pop the oldest beyond
capacity. -/
def histAdd (a : ActiveAlert) (h : List ActiveAlert) : List ActiveAlert :=
  let h2 := a :: h
  if h2.length > alertMaxHistory then h2.dropLast else h2

/-- The empty AlertService state (fresh page load). -/
def emptyAlertState : AlertState := ⟨[], [], []⟩

/-- A snapshot carrying only a battery reading. -/
def snapBattery (n : Int) : Snapshot := ⟨some n, none, none, none⟩

/-- A snapshot with every field absent. -/
def emptySnap : Snapshot := ⟨none, none, none, none⟩

/-- alert.js `trigger`: if an active alert for the rule exists and is within
the cooldown window, do nothing (no re-emission, alert stays); otherwise
create/replace the active alert with a fresh timestamp and formatted message
`"{message}: {value}{unit}"`, push it to the bounded history, and emit a
notification. -/
def alertTrigger (ruleId : String) (rule : AlertRule) (value : Int)
    (now : Nat) (st : AlertState) : AlertState :=
  let withinCooldown : Bool :=
    match lookupA st.active ruleId with
    | some ex => decide (now - ex.time < alertCooldown)
    | none => false
  if withinCooldown then st
  else
    let a : ActiveAlert :=
      ⟨ruleId, rule.message ++ ": " ++ toString value ++ getUnit rule.field,
       rule.level, now, value⟩
    ⟨setA st.active ruleId a, histAdd a st.history, st.notifications ++ [a]⟩

/-- alert.js `resolve`: remove the rule's active alert immediately (no
cooldown on clearing); a no-op when none is active. -/
def alertResolve (ruleId : String) (st : AlertState) : AlertState :=
  if (lookupA st.active ruleId).isSome then
    { st with active := removeA st.active ruleId }
  else st

/-- alert.js `check`: merge the two snapshots, then for every enabled rule
in declaration order: skip when the field is absent; trigger when the
below/above comparison holds; resolve otherwise. -/
def alertCheck (robotData sensorData : Snapshot) (now : Nat)
    (st : AlertState) : AlertState :=
  let allData := mergeSnap robotData sensorData
  alertRules.foldl (fun s pr =>
    if !pr.2.enabled then s
    else
      match getField allData pr.2.field with
      | none => s
      | some v =>
        let triggered :=
          match pr.2.condition with
          | .below => decide (v < pr.2.threshold)
          | .above => decide (v > pr.2.threshold)
        if triggered then alertTrigger pr.1 pr.2 v now s
        else alertResolve pr.1 s) st

/-- The state after the first evaluation of the C7 scenario
(battery = 15 at time 0 on a fresh state). -/
def alertSt1 : AlertState := alertCheck (snapBattery 15) emptySnap 0 emptyAlertState

/-- The lowBattery alert created by that first evaluation. -/
def alert15 : ActiveAlert := ⟨"lowBattery", "电量过低: 15%", "critical", 0, 15⟩

-- ============================================================
-- Theorems: C7
-- ============================================================

/-- C7 (counterexample): evaluating battery = 15 and then battery = 16
(within one cooldown window) does NOT clear the lowBattery alert: 16 is
still below the threshold 20, so after the second evaluation the alert is
still active — the claim that the second evaluation clears it is false. -/
theorem battery16_does_not_clear_lowBattery :
    (lookupA (alertCheck (snapBattery 16) emptySnap 1000 alertSt1).active
      "lowBattery").isSome = true := by
  decide

/-- C7 (amended): for the evaluation sequence battery = 15, 16, 15 within
one cooldown window: the first evaluation emits exactly one notification and
activates the lowBattery alert; the second (16 is still below the
threshold 20, and the alert is within cooldown) changes nothing — the alert
stays active with no new notification; the third likewise changes nothing.
Exactly one notification is emitted over the whole sequence. -/
theorem lowBattery_triggers_once_and_stays_active (t2 t3 : Nat)
    (h2 : t2 < 30000) (h3 : t3 < 30000) :
    alertSt1 = ⟨[("lowBattery", alert15)], [alert15], [alert15]⟩
    ∧ alertCheck (snapBattery 16) emptySnap t2 alertSt1 = alertSt1
    ∧ alertCheck (snapBattery 15) emptySnap t3
        (alertCheck (snapBattery 16) emptySnap t2 alertSt1) = alertSt1 := by
  have hst1 : alertSt1 = ⟨[("lowBattery", alert15)], [alert15], [alert15]⟩ := by
    decide
  have step : ∀ (v : Int) (t : Nat), v < 20 → t < 30000 →
      alertCheck (snapBattery v) emptySnap t alertSt1 = alertSt1 := by
    intro v t hv ht
    rw [hst1]
    simp [alertCheck, alertRules, mergeSnap, pickField, getField, snapBattery,
      emptySnap, alertTrigger, lookupA, alert15, alertCooldown, hv, ht]
  refine ⟨hst1, step 16 t2 (by norm_num) h2, ?_⟩
  rw [step 16 t2 (by norm_num) h2]
  exact step 15 t3 (by norm_num) h3

/-- Witness for the C7 theorem at times 1000 and 2000 ms. -/
theorem lowBattery_triggers_once_witness :
    (1000 : Nat) < 30000 ∧ (2000 : Nat) < 30000
    ∧ (alertSt1 = ⟨[("lowBattery", alert15)], [alert15], [alert15]⟩
      ∧ alertCheck (snapBattery 16) emptySnap 1000 alertSt1 = alertSt1
      ∧ alertCheck (snapBattery 15) emptySnap 2000
          (alertCheck (snapBattery 16) emptySnap 1000 alertSt1) = alertSt1) :=
  ⟨by decide, by decide,
   lowBattery_triggers_once_and_stays_active 1000 2000 (by decide) (by decide)⟩

-- ============================================================
-- frontend/js/video.js: DataService robot-status poller
-- ============================================================

/-- The outcome of one `API.getRobotStatus()` call inside `refresh`:
the promise resolves with `success: true`, resolves with `success: false`
(neither callback runs), or rejects (the `catch` branch). -/
inductive FetchOutcome where
  | okSuccess
  | okNoSuccess
  | exn
deriving DecidableEq

/-- The poller's connectivity state (`State.isConnected`). -/
structure PollState where
  isConnected : Bool
deriving DecidableEq

/-- An observable connectivity transition: the bundled status change, log
entry and alert-engine notification fired by `onSuccess`/`onFailure`. -/
inductive PollEvent where
  | reconnected
  | disconnected
deriving DecidableEq

/-- One tick of `startRobotStatusRefresh`'s `refresh`: on a successful
response, mark connected and fire the one-time "reconnected" transition if
previously disconnected; on a rejected fetch, fire the one-time
"disconnected" transition ONLY if previously connected (`if
(State.isConnected)`), else do nothing. -/
def robotTick (o : FetchOutcome) (st : PollState) : PollState × List PollEvent :=
  match o with
  | .okSuccess => if st.isConnected then (st, []) else (⟨true⟩, [.reconnected])
  | .okNoSuccess => (st, [])
  | .exn => if st.isConnected then (⟨false⟩, [.disconnected]) else (st, [])

/-- Run a sequence of ticks, concatenating the emitted transitions in
order. -/
def robotRun (os : List FetchOutcome) (st : PollState) :
    PollState × List PollEvent :=
  match os with
  | [] => (st, [])
  | o :: rest =>
    let r := robotTick o st
    let r2 := robotRun rest r.1
    (r2.1, r.2 ++ r2.2)

/-- Once disconnected, further failing ticks emit nothing. -/
theorem robotRun_exn_from_disconnected (k : Nat) :
    robotRun (List.replicate k .exn) ⟨false⟩ = (⟨false⟩, []) := by
  induction k with
  | zero => rfl
  | succ m ih => simp [List.replicate_succ, robotRun, robotTick, ih]

-- ============================================================
-- Theorems: C8
-- ============================================================

/-- C8 (confirmed): for every run of N ≥ 1 consecutive failing status
fetches starting from the connected state, the "disconnected" transition
fires exactly once — on the first failing tick (which alone emits it) — and
never on a later failing tick (a tick that starts disconnected emits
nothing). -/
theorem disconnect_transition_fires_once (n : Nat) (h : 1 ≤ n) :
    robotRun (List.replicate n .exn) ⟨true⟩ = (⟨false⟩, [.disconnected])
    ∧ robotTick .exn ⟨true⟩ = (⟨false⟩, [.disconnected])
    ∧ robotTick .exn ⟨false⟩ = (⟨false⟩, []) := by
  refine ⟨?_, rfl, rfl⟩
  obtain ⟨m, rfl⟩ : ∃ m, n = m + 1 := ⟨n - 1, by omega⟩
  simp [List.replicate_succ, robotRun, robotTick, robotRun_exn_from_disconnected]

/-- Witness for the C8 theorem with three consecutive failing ticks. -/
theorem disconnect_transition_fires_once_witness :
    (1 : Nat) ≤ 3
    ∧ (robotRun (List.replicate 3 .exn) ⟨true⟩ = (⟨false⟩, [.disconnected])
      ∧ robotTick .exn ⟨true⟩ = (⟨false⟩, [.disconnected])
      ∧ robotTick .exn ⟨false⟩ = (⟨false⟩, [])) :=
  ⟨by decide, disconnect_transition_fires_once 3 (by decide)⟩
